import Mathlib

/-!
Verification of the hybrid semantic search and conversational recommendation
pipeline of the appliance-parts backend. The Python modules
`semantic_search.py`, `gpt_query_processor.py`, `gpt_response_generator.py`
and `intelligent_search.py` are shallowly embedded below. External
collaborators (the OpenAI embedding/chat endpoints, sklearn's
`cosine_similarity`, the SQLite connection) are modelled as explicit
parameters/oracles; everything the repository itself computes is translated
directly from the source.
-/

namespace RelParts

/-- A row of the `products` table as the search pipeline reads it
(`sku, product_name, brand, category, sale_price` plus the stock columns
used by `suggest_upsells` and the response generator). `brand` and
`category` are nullable columns; `sale_price` is modelled as a rational. -/
structure Product where
  sku : String
  product_name : String
  brand : Option String
  category : Option String
  sale_price : ℚ
  in_stock : Bool
  stock_status : String
  deriving Repr, DecidableEq, Inhabited

/-- A `products` row together with its `embedding` BLOB column.
`none` models SQL NULL (filtered out by the `WHERE embedding IS NOT NULL`
clause), `some none` models a payload that is falsy or fails to unpickle
(skipped with a log line), `some (some v)` a payload decoding to vector
`v`. -/
structure ProductRow where
  product : Product
  embedding : Option (Option (List ℚ))
  deriving Repr, DecidableEq

/-- `load_product_embeddings` from `semantic_search.py`: keeps exactly the
rows whose embedding payload decodes, preserving table order and the index
alignment between the product list and the embedding matrix. It never
raises: undecodable rows are skipped and an empty store yields the pair of
empty lists. -/
def load_product_embeddings : List ProductRow → List Product × List (List ℚ)
  | [] => ([], [])
  | r :: rest =>
    let tail := load_product_embeddings rest
    match r.embedding with
    | some (some v) => (r.product :: tail.1, v :: tail.2)
    | _ => tail

/-- A search hit: the product dict with the `similarity` key added
(`search_products`, result-building loop). -/
structure ScoredProduct where
  product : Product
  similarity : ℚ
  deriving Repr, DecidableEq

/-- The comparison that `np.argsort` (modelled as the deterministic stable
ascending argsort) applies to two positions of the similarity vector:
strictly smaller value first, ties by original position. -/
def simLe (sims : List ℚ) (i j : ℕ) : Prop :=
  sims.getD i 0 < sims.getD j 0 ∨ (sims.getD i 0 = sims.getD j 0 ∧ i ≤ j)

instance simLe.decRel (sims : List ℚ) : DecidableRel (simLe sims) := fun i j =>
  decidable_of_iff (sims.getD i 0 < sims.getD j 0 ∨ (sims.getD i 0 = sims.getD j 0 ∧ i ≤ j))
    Iff.rfl

instance simLe.total (sims : List ℚ) : IsTotal ℕ (simLe sims) where
  total i j := by
    rcases lt_trichotomy (sims.getD i 0) (sims.getD j 0) with h | h | h
    · exact Or.inl (Or.inl h)
    · rcases Nat.le_total i j with hij | hij
      · exact Or.inl (Or.inr ⟨h, hij⟩)
      · exact Or.inr (Or.inr ⟨h.symm, hij⟩)
    · exact Or.inr (Or.inl h)

instance simLe.trans (sims : List ℚ) : IsTrans ℕ (simLe sims) where
  trans i j k hij hjk := by
    rcases hij with hij | ⟨hije, hijle⟩
    · rcases hjk with hjk | ⟨hjke, _⟩
      · exact Or.inl (hij.trans hjk)
      · exact Or.inl (hjke ▸ hij)
    · rcases hjk with hjk | ⟨hjke, hjkle⟩
      · exact Or.inl (hije ▸ hjk)
      · exact Or.inr ⟨hije.trans hjke, hijle.trans hjkle⟩

/-- `np.argsort(similarities)` modelled as the deterministic stable
ascending argsort of the similarity vector: the indices `0..N-1` sorted by
value, ties kept in positional order. -/
def argsort (sims : List ℚ) : List ℕ :=
  List.insertionSort (simLe sims) (List.range sims.length)

/-- Python list slicing `l[-k:]` for a natural `k`: the last
`min k l.length` elements when `k ≥ 1`, and the whole list when `k = 0`. -/
def lastSlice {α : Type} (l : List α) (k : ℕ) : List α :=
  if k = 0 then l else l.drop (l.length - k)

/-- `np.argsort(similarities)[-top_k:][::-1]` from `search_products`. -/
def topIndices (sims : List ℚ) (top_k : ℕ) : List ℕ :=
  (lastSlice (argsort sims) top_k).reverse

/-- `search_products` from `semantic_search.py`. The query embedding is an
oracle: `none` models `embed_search_query` raising (missing key or
transport error), which the surrounding `try/except` turns into the `[]`
return value; `some q` is a successful embedding. `simFn` stands for the
external `cosine_similarity` kernel applied between the query vector and
one matrix row. An empty store also returns `[]`. -/
def search_products (simFn : List ℚ → List ℚ → ℚ) (rows : List ProductRow)
    (query_embedding : Option (List ℚ)) (top_k : ℕ) : List ScoredProduct :=
  let loaded := load_product_embeddings rows
  if loaded.1.length = 0 then []
  else
    match query_embedding with
    | none => []
    | some q =>
      let sims := loaded.2.map (fun e => simFn q e)
      (topIndices sims top_k).map (fun i =>
        { product := loaded.1.getD i default, similarity := sims.getD i 0 })

/-- `hybrid_search` from `semantic_search.py` simply forwards to
`search_products`. -/
def hybrid_search (simFn : List ℚ → List ℚ → ℚ) (rows : List ProductRow)
    (query_embedding : Option (List ℚ)) (top_k : ℕ) : List ScoredProduct :=
  search_products simFn rows query_embedding top_k

/-- The external `cosine_similarity` kernel instantiated for the concrete
fixtures below, in which every stored vector equals the query vector: on
such inputs the cosine kernel is constantly 1. -/
def simOne (a b : List ℚ) : ℚ := 1

/-! ### `gpt_query_processor.py` -/

/-- A JSON value as far as the parsed-query dictionaries need: null,
strings, booleans and string arrays. -/
inductive JVal where
  | null
  | str (s : String)
  | boolean (b : Bool)
  | arr (xs : List String)
  deriving Repr, DecidableEq

/-- A JSON object / Python dict in insertion order; lookup returns the
first binding of a key. -/
abbrev JObj := List (String × JVal)

/-- The outcome of `call_gpt_api` followed by `json.loads`, as the code
distinguishes them: a raised transport error, output that is not valid
JSON, valid JSON that is not an object (the later key-assignment raises and
the outer `except` catches it), or a JSON object. -/
inductive GptResult where
  | apiError
  | notJson
  | nonObject
  | obj (o : JObj)
  deriving Repr, DecidableEq

/-- Python `str.split()` with no separator: split on whitespace runs,
dropping empty pieces. -/
def pySplit (s : String) : List String :=
  (s.split Char.isWhitespace).filter (fun w => w ≠ "")

/-- Python `sub in s` substring containment for a non-empty `sub`. -/
def containsSub (s sub : String) : Bool :=
  decide (2 ≤ (s.splitOn sub).length)

/-- The fixed brand list of `create_fallback_parse`. -/
def fallbackBrands : List String :=
  ["whirlpool", "ge", "samsung", "lg", "frigidaire", "bosch", "kitchenaid", "maytag"]

/-- The fixed category→keyword table of `create_fallback_parse`, in the
source dict's insertion order. -/
def fallbackCategories : List (String × List String) :=
  [("refrigerator", ["fridge", "refrigerator", "freezer"]),
   ("dishwasher", ["dishwasher"]),
   ("washer", ["washer", "washing machine"]),
   ("dryer", ["dryer"])]

/-- `create_fallback_parse` from `gpt_query_processor.py`: lower-cased
whitespace split, first brand of the fixed list occurring as a substring
(title-cased), first category of the fixed table with a keyword occurring
as a substring, first 10 words as keywords, and the literal fields
`intent='find_part'`, `urgency='normal'`, `fallback=True`. -/
def create_fallback_parse (query_text : String) : JObj :=
  let lower := query_text.toLower
  let words := pySplit lower
  let detected_brand : JVal :=
    match fallbackBrands.find? (fun b => containsSub lower b) with
    | some b => JVal.str b.capitalize
    | none => JVal.null
  let detected_category : JVal :=
    match fallbackCategories.find? (fun c => c.2.any (fun kw => containsSub lower kw)) with
    | some c => JVal.str c.1
    | none => JVal.null
  [("intent", JVal.str "find_part"),
   ("part_type", JVal.null),
   ("brand", detected_brand),
   ("model_number", JVal.null),
   ("category", detected_category),
   ("keywords", JVal.arr (words.take 10)),
   ("price_sensitivity", JVal.null),
   ("urgency", JVal.str "normal"),
   ("fallback", JVal.boolean true)]

/-- The `required_fields` list of `parse_query_with_gpt` (note: five
fields, not the eight the system prompt asks the model for). -/
def required_fields : List String :=
  ["intent", "part_type", "brand", "category", "keywords"]

/-- The backfill loop of `parse_query_with_gpt`: for each listed field
absent from the dict, append it bound to null (Python dict insertion
order). -/
def fillMissing (o : JObj) : List String → JObj
  | [] => o
  | f :: rest =>
    fillMissing (if (o.lookup f).isSome then o else o ++ [(f, JVal.null)]) rest

/-- `parse_query_with_gpt` from `gpt_query_processor.py`: on a JSON-object
model output, backfill the five `required_fields`; on any failure
(transport error, invalid JSON, non-object JSON whose key assignment
raises) return `create_fallback_parse`. It never raises once the client
exists. -/
def parse_query_with_gpt (gpt : GptResult) (query_text : String) : JObj :=
  match gpt with
  | GptResult.obj o => fillMissing o required_fields
  | _ => create_fallback_parse query_text

/-- `extract_query_intent` forwards to `parse_query_with_gpt`. -/
def extract_query_intent (gpt : GptResult) (query_text : String) : JObj :=
  parse_query_with_gpt gpt query_text

/-! ### `gpt_response_generator.py` -/

/-- The apostrophe character, used by the fixed no-results reply. -/
def apos : String := (Char.ofNat 39).toString

/-- Python `f"{p:.2f}"` on a rational price: two decimal digits,
round-half-up on the cent. -/
def formatPrice (p : ℚ) : String :=
  let c : Int := Int.floor (p * 100 + 1 / 2)
  let sign := if c < 0 then "-" else ""
  let n := c.natAbs
  let r := n % 100
  sign ++ toString (n / 100) ++ "." ++ (if r < 10 then "0" ++ toString r else toString r)

/-- Python `"\n".join(lines)`. -/
def joinLines : List String → String
  | [] => ""
  | [l] => l
  | l :: ls => l ++ "\n" ++ joinLines ls

/-- `suggest_upsells` from `gpt_response_generator.py` — the reachable
part: one SQL query over the `products` table selecting rows whose SKU is
not among the truthy primary SKUs, whose brand equals the first primary
result's brand (a NULL brand matches nothing), and which are in stock,
limited to `num_suggestions` rows in table order. An empty primary list
returns `[]`; an empty truthy-SKU list makes the interpolated `NOT IN ()`
a SQL syntax error, which the `except` clause turns into `[]`. Everything
after the first `return` (price band, category exclusion, relaxation) is
unreachable. -/
def suggest_upsells (catalog : List Product) (primary_products : List Product)
    (num_suggestions : ℕ) : List Product :=
  match primary_products with
  | [] => []
  | p0 :: _ =>
    let primary_brand := p0.brand
    let primary_skus := (primary_products.map (fun p => p.sku)).filter (fun s => s ≠ "")
    if primary_skus.isEmpty then []
    else
      (catalog.filter (fun c =>
        !(primary_skus.contains c.sku)
          && (match primary_brand with
              | some b => c.brand == some b
              | none => false)
          && c.in_stock)).take num_suggestions

/-- `generate_fallback_response`: the deterministic template used when the
chat model call fails — up to 3 products with name/SKU/price/stock and up
to 2 upsells with name/price, or a fixed no-products line. -/
def generate_fallback_response (products : List Product) (upsells : List Product) : String :=
  if products.isEmpty then
    "No products found matching your criteria. Please try a different search."
  else
    let prodLines := (products.take 3).enum.flatMap (fun ip =>
      [toString (ip.1 + 1) ++ ". **" ++ ip.2.product_name ++ "** (SKU: " ++ ip.2.sku ++ ")",
       "   $" ++ formatPrice ip.2.sale_price ++ " - "
         ++ (if ip.2.in_stock then "In Stock" else "Out of Stock")])
    let upsellLines :=
      if upsells.isEmpty then []
      else "\n**Customers also purchased:**" ::
        (upsells.take 2).map (fun u =>
          "- " ++ u.product_name ++ " ($" ++ formatPrice u.sale_price ++ ")")
    joinLines (["I found these products for you:\n"] ++ prodLines ++ upsellLines)

/-- `generate_no_results_response`: the chat model's reply on success
(`chat = some content`), or the fixed apology when the call raises. -/
def generate_no_results_response (chat : Option String) : String :=
  match chat with
  | some content => content
  | none =>
    "I couldn" ++ apos ++ "t find exact matches for your query. "
      ++ "Could you provide more details like the brand, model number, or appliance type? "
      ++ "I" ++ apos ++ "m here to help you find the right part!"

/-- `generate_response` from `gpt_response_generator.py`. `chat` and
`chatNR` are the chat-model oracles of the two call sites (`none` models a
raised transport error, `some content` a successful completion, returned
verbatim). An empty result list goes to `generate_no_results_response`;
otherwise upsells are fetched (when enabled) and a failed model call falls
back to the deterministic template. No exception escapes. -/
def generate_response (chat chatNR : Option String) (catalog : List Product)
    (query_text : String) (results : List ScoredProduct) (include_upsells : Bool) : String :=
  if results.isEmpty then generate_no_results_response chatNR
  else
    let top_products := (results.take 3).map (fun r => r.product)
    let upsells := if include_upsells then suggest_upsells catalog top_products 2 else []
    match chat with
    | some content => content
    | none => generate_fallback_response top_products (if include_upsells then upsells else [])

/-! ### `intelligent_search.py` -/

/-- The raw dict `IntelligentSearchSystem.search` returns with
`return_raw=True`. -/
structure RawSearchResult where
  query : String
  parsed_query : JObj
  products : List ScoredProduct
  response : String
  deriving Repr, DecidableEq

/-- `IntelligentSearchSystem.search`: parse intent, run `hybrid_search`,
generate the response, and return the bundle. The external services are
the oracles `gpt` (intent model), `query_embedding` (embedding service;
`none` = transport error) and `chat`/`chatNR` (response model). -/
def IntelligentSearchSystem.search (gpt : GptResult) (simFn : List ℚ → List ℚ → ℚ)
    (rows : List ProductRow) (catalog : List Product)
    (query_embedding : Option (List ℚ)) (chat chatNR : Option String)
    (query_text : String) (top_k : ℕ) (include_upsells : Bool) : RawSearchResult :=
  let parsed_query := extract_query_intent gpt query_text
  let search_results := hybrid_search simFn rows query_embedding top_k
  let response_text := generate_response chat chatNR catalog query_text search_results include_upsells
  { query := query_text, parsed_query := parsed_query,
    products := search_results, response := response_text }

/-- Python `sku.upper()`, modelled character-wise (SKUs are ASCII). -/
def pyUpper (s : String) : String := ⟨s.data.map Char.toUpper⟩

/-- `IntelligentSearchSystem.get_product_details`: first `products` row
whose SKU equals the upper-cased argument, `none` when no row matches;
total, never raises. -/
def IntelligentSearchSystem.get_product_details (catalog : List Product)
    (sku : String) : Option Product :=
  catalog.find? (fun p => p.sku == pyUpper sku)

/-! ### Concrete fixtures used in counterexamples and witnesses -/

/-- A catalog row: in-stock brand-B part with SKU `A`. -/
def pA : Product := ⟨"A", "Part A", some "B", some "cat", 10, true, "In Stock"⟩

/-- A catalog row: in-stock brand-B part with SKU `B`. -/
def pB : Product := ⟨"B", "Part B", some "B", some "cat", 10, true, "In Stock"⟩

/-- A two-row store where both products carry the same embedding `[1]`. -/
def rowsAB : List ProductRow := [⟨pA, some (some [1])⟩, ⟨pB, some (some [1])⟩]

/-- A store whose single row has an undecodable embedding payload. -/
def rowsBad : List ProductRow := [⟨pA, some none⟩]

/-- A catalog row whose SKU is the empty string (a falsy SKU in Python). -/
def pEmptySku : Product := ⟨"", "NoSku", some "B", some "cat", 10, true, "In Stock"⟩

/-- A cheap primary result (sale price 10, brand B). -/
def pCheap : Product := ⟨"C", "Cheap", some "B", some "cat", 10, true, "In Stock"⟩

/-- A same-brand in-stock candidate priced 100 times the cheap primary. -/
def pRich : Product := ⟨"R", "Rich", some "B", some "othercat", 1000, true, "In Stock"⟩

/-- An in-stock candidate of a different brand. -/
def pOther : Product := ⟨"O", "OtherBrand", some "Z", some "cat", 10, true, "In Stock"⟩

/-! ## Helper lemmas -/

lemma lookup_append_of_isSome {l : JObj} (t : JObj) {k : String}
    (h : (l.lookup k).isSome) : (l ++ t).lookup k = l.lookup k := by
  induction l with
  | nil => simp at h
  | cons a l ih =>
    rcases a with ⟨a, v⟩
    by_cases hk : k == a
    · simp [List.lookup, hk]
    · simp only [List.lookup, hk, cond_false] at h ⊢
      exact ih h

lemma lookup_append_of_none {l : JObj} (t : JObj) {k : String}
    (h : l.lookup k = none) : (l ++ t).lookup k = t.lookup k := by
  induction l with
  | nil => simp
  | cons a l ih =>
    rcases a with ⟨a, v⟩
    by_cases hk : k == a
    · simp [List.lookup, hk] at h
    · simp only [List.lookup, hk, cond_false] at h ⊢
      exact ih h

lemma fillMissing_lookup_of_isSome :
    ∀ (fs : List String) (o : JObj) (k : String),
      (o.lookup k).isSome → (fillMissing o fs).lookup k = o.lookup k := by
  intro fs
  induction fs with
  | nil => intro o k _; rfl
  | cons f rest ih =>
    intro o k h
    unfold fillMissing
    by_cases hf : (o.lookup f).isSome
    · rw [if_pos hf]; exact ih o k h
    · rw [if_neg hf]
      have h2 : ((o ++ [(f, JVal.null)]).lookup k) = o.lookup k :=
        lookup_append_of_isSome _ h
      rw [ih _ k (by rw [h2]; exact h), h2]

lemma fillMissing_lookup_of_not_mem :
    ∀ (fs : List String) (o : JObj) (k : String),
      k ∉ fs → (fillMissing o fs).lookup k = o.lookup k := by
  intro fs
  induction fs with
  | nil => intro o k _; rfl
  | cons f rest ih =>
    intro o k h
    have hne : k ≠ f := fun he => h (he ▸ List.mem_cons_self f rest)
    have hrest : k ∉ rest := fun hr => h (List.mem_cons_of_mem f hr)
    unfold fillMissing
    by_cases hf : (o.lookup f).isSome
    · rw [if_pos hf]; exact ih o k hrest
    · rw [if_neg hf]
      have h2 : ((o ++ [(f, JVal.null)]).lookup k) = o.lookup k := by
        rcases ho : o.lookup k with _ | v
        · rw [lookup_append_of_none _ ho]
          have hb : (k == f) = false := beq_eq_false_iff_ne.mpr hne
          simp [List.lookup, hb]
        · rw [lookup_append_of_isSome _ (by rw [ho]; rfl), ho]
      rw [ih _ k hrest, h2]

lemma fillMissing_lookup_of_mem_none :
    ∀ (fs : List String) (o : JObj) (f : String),
      f ∈ fs → o.lookup f = none → (fillMissing o fs).lookup f = some JVal.null := by
  intro fs
  induction fs with
  | nil => intro o f h _; cases h
  | cons f0 rest ih =>
    intro o f hmem hnone
    unfold fillMissing
    by_cases hef : f = f0
    · subst hef
      rw [if_neg (by rw [hnone]; simp)]
      have h2 : ((o ++ [(f, JVal.null)]).lookup f) = some JVal.null := by
        rw [lookup_append_of_none _ hnone]; simp [List.lookup]
      rw [fillMissing_lookup_of_isSome rest _ f (by rw [h2]; rfl), h2]
    · have hrest : f ∈ rest := by
        rcases List.mem_cons.mp hmem with h | h
        · exact absurd h hef
        · exact h
      by_cases hf : (o.lookup f0).isSome
      · rw [if_pos hf]; exact ih o f hrest hnone
      · rw [if_neg hf]
        refine ih _ f hrest ?_
        rw [lookup_append_of_none _ hnone]
        have hb : (f == f0) = false := beq_eq_false_iff_ne.mpr hef
        simp [List.lookup, hb]

lemma fillMissing_lookup_of_mem_isSome (fs : List String) (o : JObj) (f : String)
    (h : f ∈ fs) : ((fillMissing o fs).lookup f).isSome := by
  rcases ho : o.lookup f with _ | v
  · rw [fillMissing_lookup_of_mem_none fs o f h ho]; rfl
  · rw [fillMissing_lookup_of_isSome fs o f (by rw [ho]; rfl), ho]; rfl

lemma load_align (rows : List ProductRow) :
    (load_product_embeddings rows).2.length = (load_product_embeddings rows).1.length := by
  induction rows with
  | nil => rfl
  | cons r rest ih =>
    cases hr : r.embedding with
    | none => simpa [load_product_embeddings, hr] using ih
    | some mv =>
      cases mv with
      | none => simpa [load_product_embeddings, hr] using ih
      | some v => simpa [load_product_embeddings, hr] using ih

lemma argsort_perm (sims : List ℚ) :
    List.Perm (argsort sims) (List.range sims.length) :=
  List.perm_insertionSort _ _

lemma argsort_sorted (sims : List ℚ) :
    List.Pairwise (simLe sims) (argsort sims) :=
  List.sorted_insertionSort _ _

lemma argsort_nodup (sims : List ℚ) : (argsort sims).Nodup :=
  ((argsort_perm sims).nodup_iff).mpr (List.nodup_range _)

lemma mem_argsort {sims : List ℚ} {i : ℕ} (h : i ∈ argsort sims) : i < sims.length :=
  List.mem_range.mp ((argsort_perm sims).mem_iff.mp h)

lemma lastSlice_sublist {α : Type} (l : List α) (k : ℕ) :
    List.Sublist (lastSlice l k) l := by
  unfold lastSlice
  split
  · exact List.Sublist.refl _
  · exact List.drop_sublist _ _

lemma mem_topIndices {sims : List ℚ} {k i : ℕ} (h : i ∈ topIndices sims k) :
    i < sims.length := by
  unfold topIndices at h
  rw [List.mem_reverse] at h
  exact mem_argsort ((lastSlice_sublist _ _).subset h)

lemma topIndices_length (sims : List ℚ) (k : ℕ) (hk : k ≠ 0) :
    (topIndices sims k).length = min k sims.length := by
  unfold topIndices lastSlice
  rw [if_neg hk, List.length_reverse, List.length_drop,
    ((argsort_perm sims).length_eq.trans (List.length_range _))]
  omega

lemma topIndices_pairwise (sims : List ℚ) (k : ℕ) :
    List.Pairwise (fun i j => simLe sims j i) (topIndices sims k) := by
  unfold topIndices
  rw [List.pairwise_reverse]
  exact (argsort_sorted sims).sublist (lastSlice_sublist _ _)

lemma topIndices_nodup (sims : List ℚ) (k : ℕ) : (topIndices sims k).Nodup := by
  unfold topIndices
  rw [List.nodup_reverse]
  exact (argsort_nodup sims).sublist (lastSlice_sublist _ _)

lemma search_products_some (simFn : List ℚ → List ℚ → ℚ) (rows : List ProductRow)
    (q : List ℚ) (k : ℕ) (h : (load_product_embeddings rows).1.length ≠ 0) :
    search_products simFn rows (some q) k =
      (topIndices ((load_product_embeddings rows).2.map (fun e => simFn q e)) k).map
        (fun i =>
          { product := (load_product_embeddings rows).1.getD i default,
            similarity := ((load_product_embeddings rows).2.map (fun e => simFn q e)).getD i 0 }) := by
  simp only [search_products]
  rw [if_neg h]

lemma search_products_embed_fail (simFn : List ℚ → List ℚ → ℚ) (rows : List ProductRow)
    (k : ℕ) : search_products simFn rows none k = [] := by
  simp only [search_products]
  split <;> rfl

/-! ## Claims -/

/-- C4, counterexample: on the valid (empty) JSON object `{}` the parser
backfills only the five `required_fields`; `model_number`,
`price_sensitivity` and `urgency` stay absent, so the result does not
contain all eight keys the claim lists. -/
theorem c4_eight_keys_counterexample :
    (parse_query_with_gpt (GptResult.obj []) "water filter").lookup "model_number" = none
    ∧ (parse_query_with_gpt (GptResult.obj []) "water filter").lookup "price_sensitivity" = none
    ∧ (parse_query_with_gpt (GptResult.obj []) "water filter").lookup "urgency" = none
    ∧ (parse_query_with_gpt (GptResult.obj []) "water filter").lookup "intent"
        = some JVal.null := by
  decide

/-- C4, amended: for every JSON-object model output the parser returns a
dict in which the five fields of `required_fields` (`intent`, `part_type`,
`brand`, `category`, `keywords`) are present — each one missing from the
model's JSON is filled with null — while every key outside
`required_fields` (in particular `model_number`, `price_sensitivity`,
`urgency`) is returned exactly as in the model's JSON, absent when the
model omitted it. -/
theorem c4_required_fields_backfilled (o : JObj) (q : String) :
    (((parse_query_with_gpt (GptResult.obj o) q).lookup "intent").isSome
      ∧ ((parse_query_with_gpt (GptResult.obj o) q).lookup "part_type").isSome
      ∧ ((parse_query_with_gpt (GptResult.obj o) q).lookup "brand").isSome
      ∧ ((parse_query_with_gpt (GptResult.obj o) q).lookup "category").isSome
      ∧ ((parse_query_with_gpt (GptResult.obj o) q).lookup "keywords").isSome)
    ∧ (∀ f, f ∈ required_fields → o.lookup f = none →
        (parse_query_with_gpt (GptResult.obj o) q).lookup f = some JVal.null)
    ∧ (∀ k, k ∉ required_fields →
        (parse_query_with_gpt (GptResult.obj o) q).lookup k = o.lookup k) := by
  refine ⟨⟨?_, ?_, ?_, ?_, ?_⟩, ?_, ?_⟩
  · exact fillMissing_lookup_of_mem_isSome _ o _ (by decide)
  · exact fillMissing_lookup_of_mem_isSome _ o _ (by decide)
  · exact fillMissing_lookup_of_mem_isSome _ o _ (by decide)
  · exact fillMissing_lookup_of_mem_isSome _ o _ (by decide)
  · exact fillMissing_lookup_of_mem_isSome _ o _ (by decide)
  · intro f hf hnone
    exact fillMissing_lookup_of_mem_none _ o f hf hnone
  · intro k hk
    exact fillMissing_lookup_of_not_mem _ o k hk

/-- C5: every model failure — a raised transport/timeout error, output
that is not JSON, or valid JSON that is not an object — makes the parser
return the deterministic rule-based `create_fallback_parse` (lower-cased
whitespace split, substring match against the fixed brand list and the
fixed category keyword table), whose dict carries `fallback = true`,
`intent = 'find_part'` and `urgency = 'normal'`; no exception escapes. -/
theorem c5_fallback_on_model_failure (q : String) :
    parse_query_with_gpt GptResult.apiError q = create_fallback_parse q
    ∧ parse_query_with_gpt GptResult.notJson q = create_fallback_parse q
    ∧ parse_query_with_gpt GptResult.nonObject q = create_fallback_parse q
    ∧ (create_fallback_parse q).lookup "fallback" = some (JVal.boolean true)
    ∧ (create_fallback_parse q).lookup "intent" = some (JVal.str "find_part")
    ∧ (create_fallback_parse q).lookup "urgency" = some (JVal.str "normal") := by
  refine ⟨rfl, rfl, rfl, ?_, ?_, ?_⟩ <;> rfl

/-- C1: for every similarity kernel, store with at least one decodable
embedding, successfully embedded query and `top_k ≥ 1` (the contract's
lower bound — `top_k = 0` would slice the whole array), `search_products`
returns exactly `min top_k N` results, sorted by non-increasing
similarity, each of whose products is drawn from the loaded product
list. -/
theorem c1_rank_top_k (simFn : List ℚ → List ℚ → ℚ) (rows : List ProductRow)
    (q : List ℚ) (top_k : ℕ) (hk : 1 ≤ top_k)
    (hne : (load_product_embeddings rows).1 ≠ []) :
    (search_products simFn rows (some q) top_k).length
        = min top_k (load_product_embeddings rows).1.length
    ∧ List.Pairwise (fun a b => b.similarity ≤ a.similarity)
        (search_products simFn rows (some q) top_k)
    ∧ ∀ r ∈ search_products simFn rows (some q) top_k,
        r.product ∈ (load_product_embeddings rows).1 := by
  have hlen0 : (load_product_embeddings rows).1.length ≠ 0 :=
    fun h => hne (List.length_eq_zero.mp h)
  have hsl : ((load_product_embeddings rows).2.map (fun e => simFn q e)).length
      = (load_product_embeddings rows).1.length := by
    rw [List.length_map, load_align]
  rw [search_products_some simFn rows q top_k hlen0]
  refine ⟨?_, ?_, ?_⟩
  · rw [List.length_map, topIndices_length _ _ (by omega), hsl]
  · rw [List.pairwise_map]
    refine (topIndices_pairwise _ top_k).imp (fun hle => ?_)
    rcases hle with hlt | ⟨heq, _⟩
    · exact le_of_lt hlt
    · exact le_of_eq heq
  · intro r hr
    rcases List.mem_map.mp hr with ⟨i, hi, rfl⟩
    have hilt : i < (load_product_embeddings rows).1.length := hsl ▸ mem_topIndices hi
    rw [List.getD_eq_getElem _ default hilt]
    exact List.getElem_mem hilt

/-- C1, witness: on the concrete two-product store `rowsAB` with
`top_k = 5 > N = 2`, both products come back, sorted, drawn from the
store. -/
theorem c1_rank_top_k_witness :
    (search_products simOne rowsAB (some [1]) 5).length
        = min 5 (load_product_embeddings rowsAB).1.length
    ∧ List.Pairwise (fun a b => b.similarity ≤ a.similarity)
        (search_products simOne rowsAB (some [1]) 5)
    ∧ ∀ r ∈ search_products simOne rowsAB (some [1]) 5,
        r.product ∈ (load_product_embeddings rowsAB).1 :=
  c1_rank_top_k simOne rowsAB [1] 5 (by decide) (by decide)

/-- C9, counterexample: two products loaded in the order `pA`, `pB` carry
identical embeddings, hence tie on similarity; the returned order is
`pB`, `pA` — the reverse of the load order, because
`np.argsort(...)[-top_k:][::-1]` reverses equal-scored runs. -/
theorem c9_tie_order_counterexample :
    search_products simOne rowsAB (some [1]) 5
      = [{ product := pB, similarity := 1 }, { product := pA, similarity := 1 }] := by
  decide

/-- C9, amended: top-k selection is deterministic (stable ascending
argsort followed by reversal), but equal-similarity products appear in
strictly *decreasing* catalog order, not the original load order. -/
theorem c9_ties_reverse_load_order (sims : List ℚ) (k : ℕ) :
    List.Pairwise (fun i j => sims.getD i 0 = sims.getD j 0 → j < i)
      (topIndices sims k) := by
  have hnd : List.Pairwise (fun a b => a ≠ b) (topIndices sims k) :=
    topIndices_nodup sims k
  refine ((topIndices_pairwise sims k).and hnd).imp (fun hp heq => ?_)
  obtain ⟨hle, hne⟩ := hp
  rcases hle with hlt | ⟨_, hji⟩
  · exact absurd hlt (by rw [heq]; exact lt_irrefl _)
  · exact Nat.lt_of_le_of_ne hji (Ne.symm hne)

/-- C2, counterexample: with a healthy two-product store, an embedding
transport failure (`query_embedding = none`) is caught inside
`search_products`, which returns `[]`; the orchestrator then proceeds and
returns a complete bundle — empty product list plus the ordinary
no-results narrative — instead of surfacing any error. -/
theorem c2_swallowed_error_counterexample :
    (IntelligentSearchSystem.search GptResult.apiError simOne rowsAB [] none none none
        "water filter" 5 true).products = []
    ∧ (IntelligentSearchSystem.search GptResult.apiError simOne rowsAB [] none none none
        "water filter" 5 true).response = generate_no_results_response none
    ∧ (IntelligentSearchSystem.search GptResult.apiError simOne rowsAB [] none none none
        "water filter" 5 true).query = "water filter" := by
  exact ⟨rfl, rfl, rfl⟩

/-- C2, amended: an embedding transport error never surfaces: for every
store, catalog and oracle configuration the orchestrator returns a full
bundle whose product list is empty and whose narrative is the no-results
response — indistinguishable in shape from a successful search that
matched nothing. -/
theorem c2_embed_failure_swallowed (gpt : GptResult) (simFn : List ℚ → List ℚ → ℚ)
    (rows : List ProductRow) (catalog : List Product) (chat chatNR : Option String)
    (q : String) (top_k : ℕ) (u : Bool) :
    (IntelligentSearchSystem.search gpt simFn rows catalog none chat chatNR q top_k u).products
        = []
    ∧ (IntelligentSearchSystem.search gpt simFn rows catalog none chat chatNR q top_k u).response
        = generate_no_results_response chatNR
    ∧ (IntelligentSearchSystem.search gpt simFn rows catalog none chat chatNR q top_k u).parsed_query
        = extract_query_intent gpt q := by
  refine ⟨search_products_embed_fail simFn rows top_k, ?_, rfl⟩
  show generate_response chat chatNR catalog q (hybrid_search simFn rows none top_k) u
      = generate_no_results_response chatNR
  rw [show hybrid_search simFn rows none top_k = []
    from search_products_embed_fail simFn rows top_k]
  rfl

/-- C3, counterexample: a snapshot whose only row has an undecodable
embedding payload makes `load_product_embeddings` return the pair of
empty lists — no `StoreEmptyError` or any other exception exists in the
code — and `search_products` then returns the plain empty list, the same
value a successful search with no matches would produce. -/
theorem c3_store_empty_counterexample :
    load_product_embeddings rowsBad = ([], [])
    ∧ search_products simOne rowsBad (some [1]) 5 = [] := by
  exact ⟨rfl, rfl⟩

/-- C3, amended: whenever no row of the snapshot has a decodable
embedding payload, `load_product_embeddings` returns `([], [])` without
failing, and `search_products` returns the ordinary empty result list —
the caller cannot distinguish this from a search with no matches. -/
theorem c3_no_decodable_rows_empty_result (rows : List ProductRow)
    (simFn : List ℚ → List ℚ → ℚ) (qe : Option (List ℚ)) (k : ℕ)
    (h : ∀ r ∈ rows, r.embedding = none ∨ r.embedding = some none) :
    load_product_embeddings rows = ([], [])
    ∧ search_products simFn rows qe k = [] := by
  have hload : ∀ rs : List ProductRow,
      (∀ r ∈ rs, r.embedding = none ∨ r.embedding = some none) →
      load_product_embeddings rs = ([], []) := by
    intro rs
    induction rs with
    | nil => intro _; rfl
    | cons r rest ih =>
      intro hall
      have h1 := hall r (List.mem_cons_self r rest)
      have h2 := ih (fun x hx => hall x (List.mem_cons_of_mem r hx))
      rcases h1 with h1 | h1 <;> simp [load_product_embeddings, h1, h2]
  refine ⟨hload rows h, ?_⟩
  simp [search_products, hload rows h]

/-- C3, witness: the amended statement evaluated on the one-bad-row
snapshot. -/
theorem c3_no_decodable_rows_witness :
    load_product_embeddings rowsBad = ([], [])
    ∧ search_products simOne rowsBad none 3 = [] :=
  c3_no_decodable_rows_empty_result rowsBad simOne none 3 (by decide)

/-- C6, counterexample: a primary result whose SKU is the empty string is
falsy in Python, so it is dropped from the `NOT IN` exclusion list; the
very same row then satisfies the upsell query and is returned, so the
output's SKU set intersects the primary-result SKU set (at `""`). -/
theorem c6_empty_sku_counterexample :
    (suggest_upsells [pEmptySku, pA, pB] [pA, pEmptySku] 2).map (fun p => p.sku)
        = ["", "B"]
    ∧ "" ∈ ([pA, pEmptySku].map (fun p => p.sku))
    ∧ pEmptySku ∈ suggest_upsells [pEmptySku, pA, pB] [pA, pEmptySku] 2 := by
  refine ⟨by decide, by decide, by decide⟩

/-- C6, amended: every upsell is in stock, and its SKU differs from every
*non-empty* primary SKU (primaries with an empty-string SKU are not
excluded, as the counterexample shows). -/
theorem c6_upsell_stock_and_exclusion (catalog primary : List Product) (n : ℕ) :
    ∀ u ∈ suggest_upsells catalog primary n,
      u.in_stock = true ∧ ∀ p ∈ primary, p.sku ≠ "" → u.sku ≠ p.sku := by
  intro u hu
  rcases primary with _ | ⟨p0, rest⟩
  · simp [suggest_upsells] at hu
  · rw [suggest_upsells] at hu
    by_cases hs : ((((p0 :: rest).map (fun p => p.sku)).filter (fun s => s ≠ "")).isEmpty)
    · rw [if_pos hs] at hu
      simp at hu
    · rw [if_neg hs] at hu
      have hu2 := List.mem_of_mem_take hu
      obtain ⟨hmem, hcond⟩ := List.mem_filter.mp hu2
      obtain ⟨hcond1, hstock⟩ := Bool.and_eq_true_iff.mp hcond
      obtain ⟨hnotin, _⟩ := Bool.and_eq_true_iff.mp hcond1
      refine ⟨hstock, ?_⟩
      intro p hp hpne heq
      have hmemsku : u.sku ∈ ((p0 :: rest).map (fun p => p.sku)).filter (fun s => s ≠ "") := by
        rw [List.mem_filter]
        exact ⟨heq ▸ List.mem_map_of_mem (fun p => p.sku) hp, by simpa using heq ▸ hpne⟩
      rw [Bool.not_eq_true'] at hnotin
      rw [show (((p0 :: rest).map (fun p => p.sku)).filter (fun s => s ≠ "")).contains u.sku
            = true from List.elem_iff.mpr hmemsku] at hnotin
      cases hnotin

/-- C6, witness: the amended statement at a concrete catalog where the
single upsell `pB` is in stock and distinct from the primary SKU. -/
theorem c6_upsell_stock_and_exclusion_witness :
    pB.in_stock = true ∧ ∀ p ∈ [pA], p.sku ≠ "" → pB.sku ≠ p.sku :=
  c6_upsell_stock_and_exclusion [pA, pB] [pA] 2 pB (by decide)

/-- C7, counterexample: the reachable query applies no price constraint —
with the primary priced 10 (band `[5, 15]` under the dead code's
`0.5×/1.5×` tolerance), the same-brand in-stock candidate priced 1000 is
returned. And when the brand-constrained pool is empty, no relaxation
happens: the result is `[]` even though an in-stock candidate of another
brand exists. -/
theorem c7_price_band_counterexample :
    suggest_upsells [pRich, pOther] [pCheap] 2 = [pRich]
    ∧ pCheap.sale_price = 10
    ∧ ¬(pRich.sale_price ≤ 15)
    ∧ suggest_upsells [pOther] [pCheap] 2 = []
    ∧ pOther.in_stock = true := by
  refine ⟨by decide, by decide, by decide, by decide, by decide⟩

/-- C7, amended: the reachable selector runs one fixed query — at most
`n` rows, each in stock and of the first primary result's brand (a
missing brand yields no candidates); there is no price band and no
brand-only/unconstrained relaxation. -/
theorem c7_upsell_single_query (catalog primary : List Product) (n : ℕ) :
    (suggest_upsells catalog primary n).length ≤ n
    ∧ ∀ u ∈ suggest_upsells catalog primary n,
        u.in_stock = true
        ∧ ∃ p0 rest, primary = p0 :: rest ∧ ∃ b, p0.brand = some b ∧ u.brand = some b := by
  constructor
  · rcases primary with _ | ⟨p0, rest⟩
    · simp [suggest_upsells]
    · rw [suggest_upsells]
      split
      · simp
      · exact List.length_take_le n _
  · intro u hu
    rcases primary with _ | ⟨p0, rest⟩
    · simp [suggest_upsells] at hu
    · rw [suggest_upsells] at hu
      split at hu
      · simp at hu
      · have hu2 := List.mem_of_mem_take hu
        obtain ⟨hmem, hcond⟩ := List.mem_filter.mp hu2
        obtain ⟨hcond1, hstock⟩ := Bool.and_eq_true_iff.mp hcond
        obtain ⟨_, hbrand⟩ := Bool.and_eq_true_iff.mp hcond1
        refine ⟨hstock, p0, rest, rfl, ?_⟩
        rcases hb : p0.brand with _ | b
        · rw [hb] at hbrand
          cases hbrand
        · rw [hb] at hbrand
          exact ⟨b, rfl, by simpa [beq_iff_eq] using hbrand⟩

/-- C7, witness: the amended statement evaluated at the concrete catalog
of the counterexample: `pRich` is returned, in stock and of the primary's
brand. -/
theorem c7_upsell_single_query_witness :
    pRich.in_stock = true
    ∧ ∃ p0 rest, [pCheap] = p0 :: rest ∧ ∃ b, p0.brand = some b ∧ pRich.brand = some b :=
  (c7_upsell_single_query [pRich, pOther] [pCheap] 2).2 pRich (by decide)

lemma joinLines_cons_of_ne (a : String) (l : List String) (h : l ≠ []) :
    joinLines (a :: l) = a ++ "\n" ++ joinLines l := by
  rcases l with _ | ⟨b, t⟩
  · exact absurd rfl h
  · rfl

lemma generate_fallback_response_shape (ps us : List Product) (h : ps ≠ []) :
    ∃ t : String, generate_fallback_response ps us
      = "I found these products for you:\n" ++ ("\n" ++ t) := by
  rcases ps with _ | ⟨p, ps'⟩
  · exact absurd rfl h
  · rw [generate_fallback_response]
    rw [if_neg (by simp)]
    have hpl : ((p :: ps').take 3).enum.flatMap (fun ip =>
        [toString (ip.1 + 1) ++ ". **" ++ ip.2.product_name ++ "** (SKU: " ++ ip.2.sku ++ ")",
         "   $" ++ formatPrice ip.2.sale_price ++ " - "
           ++ (if ip.2.in_stock then "In Stock" else "Out of Stock")]) ≠ [] := by
      simp [List.take_succ_cons, List.enum_cons]
    rcases hl : ((p :: ps').take 3).enum.flatMap (fun ip =>
        [toString (ip.1 + 1) ++ ". **" ++ ip.2.product_name ++ "** (SKU: " ++ ip.2.sku ++ ")",
         "   $" ++ formatPrice ip.2.sale_price ++ " - "
           ++ (if ip.2.in_stock then "In Stock" else "Out of Stock")]) with _ | ⟨x, xs⟩
    · exact absurd hl hpl
    · refine ⟨joinLines (x :: (xs ++ (if us.isEmpty then []
          else "\n**Customers also purchased:**" ::
            (us.take 2).map (fun u =>
              "- " ++ u.product_name ++ " ($" ++ formatPrice u.sale_price ++ ")")))), ?_⟩
      show joinLines ("I found these products for you:\n" :: x :: (xs ++ (if us.isEmpty then []
          else "\n**Customers also purchased:**" ::
            (us.take 2).map (fun u =>
              "- " ++ u.product_name ++ " ($" ++ formatPrice u.sale_price ++ ")")))) = _
      rw [joinLines_cons_of_ne _ _ (List.cons_ne_nil x _), String.append_assoc]

set_option maxRecDepth 8000 in
lemma apology_ne_empty : generate_no_results_response none ≠ "" := by decide

set_option maxRecDepth 8000 in
lemma apology_ne_header_append (t : String) :
    generate_no_results_response none
      ≠ "I found these products for you:\n" ++ ("\n" ++ t) := by
  intro h
  have h2 : ((generate_no_results_response none).data)[2]? = some 'c' := by decide
  rw [congrArg String.data h, String.data_append,
    List.getElem?_append_left (by decide)] at h2
  exact absurd h2 (by decide)

/-- C8, counterexample: the composer returns the chat model's completion
verbatim, so a successful call that produces the empty completion makes
`generate_response` return the empty string even though products were
found. -/
theorem c8_empty_completion_counterexample :
    generate_response (some "") none [] "q" [{ product := pA, similarity := 1 }] true
      = "" := rfl

/-- C8, amended: the composer never propagates a model-call failure (both
call sites are total here; the `none` oracle is the raised transport
error): on failure with a non-empty result list it returns the
deterministic template over the top 3 products and up to 2 upsells; an
empty result list takes the distinct no-matches path instead of the
listing template; and with failing oracles the output is never empty. A
*successful* completion is returned verbatim, so output non-emptiness is
only as good as the model's completion. -/
theorem c8_compose_failure_fallback (catalog : List Product) (q : String)
    (results : List ScoredProduct) (u : Bool) (chatNR : Option String) :
    (results = [] → generate_response none chatNR catalog q results u
        = generate_no_results_response chatNR)
    ∧ (results ≠ [] → generate_response none chatNR catalog q results u
        = generate_fallback_response ((results.take 3).map (fun r => r.product))
            (if u then suggest_upsells catalog ((results.take 3).map (fun r => r.product)) 2
             else []))
    ∧ generate_response none none catalog q results u ≠ ""
    ∧ (results ≠ [] →
        generate_response none none catalog q results u
          ≠ generate_no_results_response none) := by
  have hB : ∀ cnr : Option String, results ≠ [] →
      generate_response none cnr catalog q results u
        = generate_fallback_response ((results.take 3).map (fun r => r.product))
            (if u then suggest_upsells catalog ((results.take 3).map (fun r => r.product)) 2
             else []) := by
    intro cnr hres
    rcases results with _ | ⟨r, rs⟩
    · exact absurd rfl hres
    · cases u <;> simp [generate_response]
  have hshape : results ≠ [] → ∃ t : String,
      generate_response none none catalog q results u
        = "I found these products for you:\n" ++ ("\n" ++ t) := by
    intro hres
    rcases results with _ | ⟨r, rs⟩
    · exact absurd rfl hres
    · obtain ⟨t, ht⟩ := generate_fallback_response_shape
        (((r :: rs).take 3).map (fun x => x.product))
        (if u then suggest_upsells catalog (((r :: rs).take 3).map (fun x => x.product)) 2
         else [])
        (by simp [List.take_succ_cons])
      exact ⟨t, by rw [hB none (by simp), ht]⟩
  refine ⟨fun h => by subst h; rfl, hB chatNR, ?_, ?_⟩
  · rcases hres : results with _ | ⟨r, rs⟩
    · exact apology_ne_empty
    · obtain ⟨t, ht⟩ := hshape (by simp [hres])
      rw [hres] at ht
      rw [ht]
      intro hempty
      have hlen := congrArg String.length hempty
      rw [String.length_append] at hlen
      have hh : ("I found these products for you:\n").length = 32 := by decide
      have h0 : ("" : String).length = 0 := rfl
      rw [hh, h0] at hlen
      omega
  · intro hres
    obtain ⟨t, ht⟩ := hshape hres
    rw [ht]
    exact (apology_ne_header_append t).symm

/-- C10: `get_product_details` looks up the upper-cased SKU — any result
is a catalog row whose stored SKU is exactly the upper-cased input (so a
lowercase input matches only an uppercase stored SKU) — and it returns
`none`, never raising, exactly when no row's SKU equals the upper-cased
input. -/
theorem c10_get_product_details (catalog : List Product) (s : String) :
    (∀ p, IntelligentSearchSystem.get_product_details catalog s = some p →
        p ∈ catalog ∧ p.sku = pyUpper s)
    ∧ (IntelligentSearchSystem.get_product_details catalog s = none
        ↔ ∀ p ∈ catalog, p.sku ≠ pyUpper s) := by
  constructor
  · intro p hp
    refine ⟨List.mem_of_find?_eq_some hp, ?_⟩
    have := List.find?_some hp
    simpa [beq_iff_eq] using this
  · rw [IntelligentSearchSystem.get_product_details, List.find?_eq_none]
    simp

/-- C10, witness: the lowercase input `"a"` finds the row stored under
the uppercase SKU `"A"`. -/
theorem c10_get_product_details_witness :
    pA ∈ [pA] ∧ pA.sku = pyUpper "a" :=
  (c10_get_product_details [pA] "a").1 pA (by decide)

end RelParts
